import Mathlib

/-!
Verification of the `smart_controller` custom component: a shallow embedding
of its numeric derivations, the two controller runtimes, and the four domain
automatons (ceiling fan, exhaust fan, light, occupancy), with proofs of the
behavioural properties stated in the specification.

Machine readings and thresholds are modelled as exact rationals; Home
Assistant state strings are modelled as `String` or as small inductive types
where only membership in `("on", "off", "unknown", "unavailable")` matters.
-/

namespace SmartCtrl

/-! ## Numeric derivations (`util.py`) -/

/-- Temperature units relevant to the controllers. -/
inductive TempUnit
| celsius
| fahrenheit
deriving DecidableEq, Repr

/-- Modelled from the spec: the host platform's `TemperatureConverter.convert`
(external library, not under the component's source tree), as the exact affine
Celsius/Fahrenheit conversion. -/
def convert_temp (value : ℚ) (from_unit to_unit : TempUnit) : ℚ :=
  match from_unit, to_unit with
  | TempUnit.celsius, TempUnit.fahrenheit => value * 9 / 5 + 32
  | TempUnit.fahrenheit, TempUnit.celsius => (value - 32) * 5 / 9
  | _, _ => value

/-- The Fahrenheit-stage formula of `util.summer_simmer_index`:
`ssi = 1.98 * (t_f - (0.55 - (0.0055 * r_h)) * (t_f - 58)) - 56.83`. -/
def summer_simmer_index_f (t_f r_h : ℚ) : ℚ :=
  (198 / 100) * (t_f - (55 / 100 - (55 / 10000) * r_h) * (t_f - 58)) - 5683 / 100

/-- `util.summer_simmer_index`: convert the input temperature to Fahrenheit,
apply the formula, then convert the result to the configured unit. -/
def summer_simmer_index (config_unit : TempUnit) (temp : ℚ × TempUnit) (r_h : ℚ) : ℚ :=
  convert_temp (summer_simmer_index_f (convert_temp temp.1 temp.2 TempUnit.fahrenheit) r_h)
    TempUnit.fahrenheit config_unit

/-- Modelled from the spec: the external helpers
`ranged_value_to_percentage` / `percentage_to_ranged_value` (Home Assistant
library, not under the component's source tree) composed in
`util.extrapolate_value`, as the linear interpolation of the fractional
position in the source range onto the target range. -/
def interpolate_ranges (source_range target_range : ℚ × ℚ) (value : ℚ) : ℚ :=
  target_range.1 +
    (value - source_range.1) * (target_range.2 - target_range.1) /
      (source_range.2 - source_range.1)

/-- `util.extrapolate_value`: below the source range return the low default
(else the target minimum), above it return the high default (else the target
maximum), otherwise interpolate. -/
def extrapolate_value (value : ℚ) (source_range target_range : ℚ × ℚ)
    (low_default high_default : Option ℚ) : ℚ :=
  if value < source_range.1 then
    match low_default with
    | none => target_range.1
    | some d => d
  else if value > source_range.2 then
    match high_default with
    | none => target_range.2
    | some d => d
  else
    interpolate_ranges source_range target_range value

/-! ## Exhaust fan automaton (`exhaust_fan_controller.py`) -/

/-- A Home Assistant entity state string, restricted to the values the
controllers compare against. -/
inductive HAState
| on
| off
| unknown
| unavailable
deriving DecidableEq, Repr

/-- The hysteresis decision of `ExhaustFanController._set_fan_mode`, taken
after the four cached readings yield the absolute-humidity `difference`
(`abs_hum - ref_abs_hum`): `curr_mode` is the controlled fan entity's current
state; turn on when off and the difference exceeds the rising threshold, turn
off when on and the difference is below the falling threshold, else hold. -/
def exhaust_new_mode (curr_mode : HAState)
    (difference rising_threshold falling_threshold : ℚ) : HAState :=
  if curr_mode = HAState.off ∧ rising_threshold < difference then HAState.on
  else if curr_mode = HAState.on ∧ difference < falling_threshold then HAState.off
  else curr_mode

/-- `ExhaustFanController._set_fan_mode` issues a `turn_on`/`turn_off` service
call exactly when `new_mode != curr_mode`. -/
def exhaust_command_issued (curr_mode : HAState)
    (difference rising_threshold falling_threshold : ℚ) : Bool :=
  decide (exhaust_new_mode curr_mode difference rising_threshold falling_threshold ≠ curr_mode)

/-! ## Light automaton (`light_controller.py`) -/

namespace Light

/-- `light_controller.MyState`. -/
inductive MyState
| INIT
| OFF
| ON
| ON_MANUAL
| OFF_MANUAL
deriving DecidableEq, Repr

/-- `light_controller.MyEvent`. -/
inductive MyEvent
| OFF
| ON
| REFRESH
| TIMER
deriving DecidableEq, Repr

/-- Observable state of one `LightController`: the automaton state, the
cached guard inputs (`_low_light`, the required-entity maps keyed in a fixed
order), the configured periods, the outstanding timer, and the actuator
commands issued so far (`true` = `light.turn_on`). -/
structure Model where
  state : MyState
  low_light : Option Bool
  required : List Bool
  required_states : List (Option Bool)
  occupancy_mode : Bool
  auto_off_period : Option ℚ
  timer : Option ℚ
  commands : List Bool
deriving DecidableEq, Repr

/-- Guard `low_light()`: the truthiness of `self._low_light`
(`None` is falsy). -/
def low_light_guard (m : Model) : Bool := m.low_light == some true

/-- Guard `have_required()`: `self._required_states == self._required`,
i.e. every required entity's last accepted reading equals its configured
required value. -/
def have_required (m : Model) : Bool := m.required_states == m.required.map some

/-- `LightController._process_event`. `set_timer p` is modelled by assigning
the `timer` field; `_set_light_mode` appends to `commands`; the `assert not
occupancy_mode()` on the two `TIMER` transitions is modelled by returning
`none` (an `AssertionError`). -/
def process_event (m : Model) (event : MyEvent) : Option Model :=
  match m.state, event with
  | MyState.INIT, MyEvent.OFF => some { m with state := MyState.OFF }
  | MyState.INIT, MyEvent.ON =>
      some { m with state := MyState.ON, timer := m.auto_off_period }
  | MyState.OFF, MyEvent.ON =>
      some { m with state := MyState.ON_MANUAL, timer := m.auto_off_period }
  | MyState.OFF, MyEvent.REFRESH =>
      if low_light_guard m && have_required m then
        some { m with state := MyState.ON, commands := m.commands ++ [true] }
      else some m
  | MyState.ON, MyEvent.OFF =>
      some { m with state := MyState.OFF_MANUAL, timer := none }
  | MyState.ON, MyEvent.REFRESH =>
      if !have_required m then
        some { m with state := MyState.OFF, timer := none,
                      commands := m.commands ++ [false] }
      else some m
  | MyState.ON, MyEvent.TIMER =>
      if m.occupancy_mode then none
      else some { m with state := MyState.OFF, commands := m.commands ++ [false] }
  | MyState.OFF_MANUAL, MyEvent.ON =>
      if have_required m then some { m with state := MyState.ON }
      else some { m with state := MyState.ON_MANUAL }
  | MyState.OFF_MANUAL, MyEvent.REFRESH =>
      if !have_required m then some { m with state := MyState.OFF }
      else some m
  | MyState.ON_MANUAL, MyEvent.OFF =>
      if have_required m then some { m with state := MyState.OFF_MANUAL }
      else some { m with state := MyState.OFF }
  | MyState.ON_MANUAL, MyEvent.REFRESH =>
      if have_required m then some { m with state := MyState.ON }
      else some m
  | MyState.ON_MANUAL, MyEvent.TIMER =>
      if m.occupancy_mode then none
      else some { m with state := MyState.OFF, commands := m.commands ++ [false] }
  | _, _ => some m

/-- A light controller in `OFF` with both guards true, an auto-off period of
5 minutes configured, and no outstanding timer. -/
def refresh_example : Model :=
  { state := MyState.OFF
    low_light := some true
    required := [true]
    required_states := [some true]
    occupancy_mode := false
    auto_off_period := some 5
    timer := none
    commands := [] }

end Light

/-! ## Occupancy automaton (`occupancy_controller.py`) -/

namespace Occupancy

/-- `occupancy_controller.MyState`. -/
inductive MyState
| UNOCCUPIED
| MOTION
| WASP_IN_BOX
| OTHER
deriving DecidableEq, Repr

/-- `occupancy_controller.MyEvent`. -/
inductive MyEvent
| MOTION
| TIMER
| UPDATE
| DOOR_OPEN
deriving DecidableEq, Repr

/-- Observable state of one `OccupancyController`: the automaton state, the
values of `_door_states`, `_other_states` and `_required_states` (dictionaries
keyed in a fixed order; `some true` = the entity last read `STATE_ON`), the
configured required values and motion-off period, and the outstanding timer. -/
structure Model where
  state : MyState
  door_states : List (Option Bool)
  other_states : List (Option Bool)
  required : List Bool
  required_states : List (Option Bool)
  motion_off_period : Option ℚ
  timer : Option ℚ
deriving DecidableEq, Repr

/-- Guard `have_other()`: any auxiliary entity reads `STATE_ON`. -/
def have_other (m : Model) : Bool := m.other_states.any (· == some true)

/-- Guard `doors_closed()`: `any(self._door_states)` (the dictionary is
non-empty) and every door sensor's value equals `STATE_ON`. -/
def doors_closed (m : Model) : Bool :=
  !m.door_states.isEmpty && m.door_states.all (· == some true)

/-- Guard `have_required()`: `self._required == self._required_states`. -/
def have_required (m : Model) : Bool := m.required_states == m.required.map some

/-- `enter_unoccupied_state`: cancel the timer, state `UNOCCUPIED`. -/
def enter_unoccupied_state (m : Model) : Model :=
  { m with timer := none, state := MyState.UNOCCUPIED }

/-- `enter_motion_state`: start the motion-off timer, state `MOTION`. -/
def enter_motion_state (m : Model) : Model :=
  { m with timer := m.motion_off_period, state := MyState.MOTION }

/-- `enter_wasp_in_box_state`: cancel the timer, state `WASP_IN_BOX`. -/
def enter_wasp_in_box_state (m : Model) : Model :=
  { m with timer := none, state := MyState.WASP_IN_BOX }

/-- `enter_other_state`: cancel the timer, state `OTHER`. -/
def enter_other_state (m : Model) : Model :=
  { m with timer := none, state := MyState.OTHER }

/-- `OccupancyController._process_event`: the transition table, with Python
`match` guard semantics (a failed `if` guard falls through to the catch-all,
which ignores the event). -/
def process_event (m : Model) (event : MyEvent) : Model :=
  match m.state, event with
  | MyState.UNOCCUPIED, MyEvent.MOTION =>
      if have_required m then
        if doors_closed m then enter_wasp_in_box_state m else enter_motion_state m
      else m
  | MyState.UNOCCUPIED, MyEvent.UPDATE =>
      if have_required m then
        if have_other m then enter_other_state m else m
      else m
  | MyState.MOTION, MyEvent.MOTION =>
      if doors_closed m then enter_wasp_in_box_state m else enter_motion_state m
  | MyState.MOTION, MyEvent.TIMER =>
      if have_other m then enter_other_state m else enter_unoccupied_state m
  | MyState.MOTION, MyEvent.UPDATE =>
      if !have_required m then enter_unoccupied_state m else m
  | MyState.WASP_IN_BOX, MyEvent.DOOR_OPEN => enter_motion_state m
  | MyState.WASP_IN_BOX, MyEvent.UPDATE =>
      if !have_required m then enter_unoccupied_state m else m
  | MyState.OTHER, MyEvent.MOTION =>
      if doors_closed m then enter_wasp_in_box_state m else enter_motion_state m
  | MyState.OTHER, MyEvent.UPDATE =>
      if !(have_other m && have_required m) then enter_unoccupied_state m else m
  | _, _ => m

/-- `OccupancyController.on_state_change` handling of a door-sensor update
with a valid on/off reading: record the new value in `_door_states`, then
fire `DOOR_OPEN` iff any door sensor now reads `STATE_ON`. Returns the
updated model and whether `DOOR_OPEN` was fired. -/
def door_sensor_changed (m : Model) (i : ℕ) (v : Bool) : Model × Bool :=
  let ds := m.door_states.set i (some v)
  ({ m with door_states := ds }, ds.any (· == some true))

/-- An occupancy controller in `UNOCCUPIED` with one door sensor reading
`on` (closed, per the source's predicate), no auxiliary entities, an empty
required map, and a 10-minute motion-off period. -/
def wasp_example : Model :=
  { state := MyState.UNOCCUPIED
    door_states := [some true]
    other_states := []
    required := []
    required_states := []
    motion_off_period := some 10
    timer := none }

/-- An occupancy controller configured with zero door sensors, with its one
required-on entity satisfied. -/
def no_doors_example : Model :=
  { state := MyState.UNOCCUPIED
    door_states := []
    other_states := []
    required := [true]
    required_states := [some true]
    motion_off_period := some 3
    timer := none }

/-- An occupancy controller with one door sensor last read `off`. -/
def door_example : Model :=
  { state := MyState.MOTION
    door_states := [some false]
    other_states := []
    required := []
    required_states := []
    motion_off_period := some 3
    timer := none }

end Occupancy

/-! ## Runtime input-change filters (`smart_controller.py`, `base_controller.py`) -/

namespace Runtime

/-- `IGNORE_STATES = (STATE_UNKNOWN, STATE_UNAVAILABLE)`. -/
def IGNORE_STATES : List String := ["unknown", "unavailable"]

/-- A Home Assistant `State` object as the filters see it: the entity id and
the state string. -/
structure StateObj where
  entity_id : String
  state : String
deriving DecidableEq, Repr

/-- A controller as observed around one notification delivery: the
subclass-owned data (automaton state, snapshot fields, event queue — all
folded into `internal`) and the number of times the state-change handler has
been invoked. -/
structure Core (σ : Type) where
  internal : σ
  handler_calls : ℕ
deriving DecidableEq, Repr

/-- `SmartController._on_state_change(old_state, new_state)`: return without
invoking the handler when the new state is absent, carries an ignored value,
or equals the old state's value; otherwise invoke the subclass
`on_state_change` handler. -/
def smart_on_state_change {σ : Type} (handler : σ → StateObj → σ)
    (old_state new_state : Option StateObj) (c : Core σ) : Core σ :=
  match new_state with
  | none => c
  | some ns =>
      if ns.state ∈ IGNORE_STATES then c
      else
        match old_state with
        | some os =>
            if os.state = ns.state then c
            else { internal := handler c.internal ns, handler_calls := c.handler_calls + 1 }
        | none => { internal := handler c.internal ns, handler_calls := c.handler_calls + 1 }

/-- `BaseController._on_state_change(state)`: return without invoking the
handler when the state is absent or carries an ignored value. The old value
is not available to this filter. -/
def base_on_state_change {σ : Type} (handler : σ → StateObj → σ)
    (state : Option StateObj) (c : Core σ) : Core σ :=
  match state with
  | none => c
  | some s =>
      if s.state ∈ IGNORE_STATES then c
      else { internal := handler c.internal s, handler_calls := c.handler_calls + 1 }

/-- `BaseController.async_setup.on_state_event` forwards only
`event.data["new_state"]` to `_on_state_change`; the old value of the
notification is dropped. -/
def base_on_state_event {σ : Type} (handler : σ → StateObj → σ)
    (_old_state new_state : Option StateObj) (c : Core σ) : Core σ :=
  base_on_state_change handler new_state c

/-! ## Deadline timer (`set_timer` in both runtimes) -/

/-- Timer-related state of one controller, together with the scheduler's
view: `timer_unsub` is `_timer_unsub` (the handle of the outstanding timer),
`live` lists the handles that are scheduled, not cancelled and not yet fired,
`unsubscribers` is `_unsubscribers`, and `next_handle` numbers fresh handles. -/
structure TimerCtrl where
  timer_unsub : Option ℕ
  live : List ℕ
  unsubscribers : List ℕ
  next_handle : ℕ
deriving DecidableEq, Repr

/-- A freshly constructed controller: no timer outstanding. -/
def timer_initial : TimerCtrl :=
  { timer_unsub := none, live := [], unsubscribers := [], next_handle := 0 }

/-- `set_timer(period)` (identical in `SmartController` and
`BaseController`): if a timer is outstanding, remove its handle from
`_unsubscribers` and cancel it; then, if a period is given, schedule a fresh
timer and record its handle. -/
def set_timer (c : TimerCtrl) (period : Option ℚ) : TimerCtrl :=
  let c1 :=
    match c.timer_unsub with
    | some h =>
        { c with timer_unsub := none, live := c.live.erase h,
                 unsubscribers := c.unsubscribers.erase h }
    | none => c
  match period with
  | some _ =>
      { c1 with timer_unsub := some c1.next_handle,
                live := c1.live ++ [c1.next_handle],
                unsubscribers := c1.unsubscribers ++ [c1.next_handle],
                next_handle := c1.next_handle + 1 }
  | none => c1

/-- `timer_expired`: the scheduler fires the outstanding timer (it is no
longer live) and the callback clears `_timer_unsub`. -/
def timer_fired (c : TimerCtrl) : TimerCtrl :=
  match c.timer_unsub with
  | some h => { c with timer_unsub := none, live := c.live.erase h }
  | none => c

/-- The timer-affecting operations any automaton can perform. -/
inductive TimerOp
| set (period : Option ℚ)
| fire
deriving DecidableEq, Repr

/-- One timer operation. -/
def timer_step (c : TimerCtrl) (op : TimerOp) : TimerCtrl :=
  match op with
  | TimerOp.set p => set_timer c p
  | TimerOp.fire => timer_fired c

/-- A sequence of timer operations. -/
def timer_run (c : TimerCtrl) : List TimerOp → TimerCtrl
  | [] => c
  | op :: ops => timer_run (timer_step c op) ops

/-- The timer invariant: the live handles are exactly the one held in
`_timer_unsub` (zero or one), and every live handle is older than
`next_handle`. -/
def TimerInv (c : TimerCtrl) : Prop :=
  c.live = c.timer_unsub.toList ∧ ∀ h ∈ c.live, h < c.next_handle

/-! ## Actuator-command context tags (`MyContext`) -/

/-- The context attached to a state-change notification: `my_context` when the
change was produced by a service call that passed `context=MyContext()`,
`plain_context` when the call used the default `Context`. -/
inductive ContextKind
| my_context
| plain_context
deriving DecidableEq, Repr

/-- The actuator-command call sites of the four automatons.
`OccupancyController` issues no actuator commands. -/
inductive CommandPath
| exhaust_fan_turn_on_off
| light_turn_on_off
| ceiling_fan_set_percentage
deriving DecidableEq, Repr

/-- The context each call site attaches to its service call:
`ExhaustFanController._set_fan_mode` and `LightController._set_light_mode`
go through `async_service_call`, which passes `context=MyContext()`;
`CeilingFanController._set_fan_speed` calls `hass.services.async_call`
directly with no `context` argument, so the call runs under a default
`Context`. -/
def command_context : CommandPath → ContextKind
  | CommandPath.exhaust_fan_turn_on_off => ContextKind.my_context
  | CommandPath.light_turn_on_off => ContextKind.my_context
  | CommandPath.ceiling_fan_set_percentage => ContextKind.plain_context

/-- The `on_state_event` filter of both runtimes: the echo notification is
handed to `_on_state_change` iff `not isinstance(event.context, MyContext)`. -/
def echo_reaches_handler (ctx : ContextKind) : Bool :=
  decide (ctx ≠ ContextKind.my_context)

end Runtime

/-! ## Python attribute semantics for `BaseController._unsubscribers` -/

namespace ClassAttr

/-- A heap of Python list objects: object id → contents (unsubscriber
callbacks, numbered). -/
structure Heap where
  lists : List (ℕ × List ℕ)
deriving DecidableEq, Repr

/-- Read the list object with the given id. -/
def Heap.get (h : Heap) (oid : ℕ) : List ℕ :=
  ((h.lists.find? (fun p => p.1 == oid)).map Prod.snd).getD []

/-- `list.append` on the object with the given id (in-place mutation). -/
def Heap.append_at (h : Heap) (oid : ℕ) (x : ℕ) : Heap :=
  { lists := h.lists.map (fun p => if p.1 == oid then (p.1, p.2 ++ [x]) else p) }

/-- Allocate a fresh empty list object. -/
def Heap.alloc (h : Heap) (oid : ℕ) : Heap :=
  { lists := h.lists ++ [(oid, [])] }

/-- One controller instance's attribute dictionary entry for
`_unsubscribers`: `BaseController.__init__` never assigns
`self._unsubscribers`, so the entry stays `none`; `SmartController.__init__`
assigns a fresh list, so the entry holds that object's id. -/
structure Inst where
  unsubscribers_binding : Option ℕ
deriving DecidableEq, Repr

/-- The id of the single list object created by the class-body default
`_unsubscribers: list[CALLBACK_TYPE] = []` of `BaseController`, held in the
class dictionary. -/
def base_class_unsubscribers_oid : ℕ := 0

/-- Python attribute lookup for `self._unsubscribers`: the instance
dictionary if bound there, else the class attribute. -/
def lookup_unsubscribers (inst : Inst) : ℕ :=
  inst.unsubscribers_binding.getD base_class_unsubscribers_oid

/-- `BaseController.__init__` with respect to `_unsubscribers`: no instance
binding is created. -/
def base_init : Inst := { unsubscribers_binding := none }

/-- `SmartController.__init__` with respect to `_unsubscribers`:
`self._unsubscribers = []` allocates a fresh list and binds it in the
instance dictionary. -/
def smart_init (h : Heap) (fresh_oid : ℕ) : Heap × Inst :=
  (h.alloc fresh_oid, { unsubscribers_binding := some fresh_oid })

/-- `async_setup` appending the state-change subscription's unsubscriber to
`self._unsubscribers`. -/
def setup_append (h : Heap) (inst : Inst) (handle : ℕ) : Heap :=
  h.append_at (lookup_unsubscribers inst) handle

/-- The heap at `BaseController` class-definition time: the single
class-level list, empty. -/
def base_heap0 : Heap := { lists := [(base_class_unsubscribers_oid, [])] }

end ClassAttr

/-! ## Theorems -/

/-- C5: the comfort index is computed by
`1.98 * (T - (0.55 - 0.0055 * RH) * (T - 58)) - 56.83` on the Fahrenheit
temperature before converting to the configured unit, and at `T = 80 °F`,
`RH = 50 %` the index before unit conversion is `89.59 °F` to within `0.01`. -/
theorem C5_summer_simmer_index_value :
    summer_simmer_index TempUnit.fahrenheit (80, TempUnit.fahrenheit) 50 =
      summer_simmer_index_f 80 50
    ∧ |summer_simmer_index_f 80 50 - 8959 / 100| ≤ 1 / 100 := by
  constructor
  · rfl
  · norm_num [summer_simmer_index_f, abs_le]

/-- C4: `extrapolate_value` returns the low default (else the target minimum)
strictly below the source range, the high default (else the target maximum)
strictly above it, and, absent a low default, maps the source minimum to the
target minimum. -/
theorem C4_extrapolate_value_boundaries (value : ℚ) (source_range target_range : ℚ × ℚ)
    (low_default high_default : Option ℚ)
    (hr : source_range.1 ≤ source_range.2) :
    (value < source_range.1 →
      extrapolate_value value source_range target_range low_default high_default =
        low_default.getD target_range.1)
    ∧ (source_range.2 < value →
      extrapolate_value value source_range target_range low_default high_default =
        high_default.getD target_range.2)
    ∧ extrapolate_value source_range.1 source_range target_range none high_default =
      target_range.1 := by
  refine ⟨fun h => ?_, fun h => ?_, ?_⟩
  · rw [extrapolate_value.eq_def, if_pos h]
    cases low_default <;> rfl
  · have h1 : ¬value < source_range.1 := not_lt.mpr (le_trans hr (le_of_lt h))
    rw [extrapolate_value.eq_def, if_neg h1, if_pos h]
    cases high_default <;> rfl
  · rw [extrapolate_value.eq_def, if_neg (lt_irrefl source_range.1),
      if_neg (not_lt.mpr hr)]
    simp [interpolate_ranges]

/-- Witness for C4 at `value ∈ {-1, 11, 0}`, `sourceRange = (0, 10)`,
`targetRange = (20, 40)`. -/
theorem C4_extrapolate_value_boundaries_witness :
    extrapolate_value (-1) (0, 10) (20, 40) (some 7) none = 7
    ∧ extrapolate_value 11 (0, 10) (20, 40) none (some 33) = 33
    ∧ extrapolate_value 0 (0, 10) (20, 40) none none = 20 :=
  ⟨(C4_extrapolate_value_boundaries (-1) (0, 10) (20, 40) (some 7) none
      (by norm_num)).1 (by norm_num),
   (C4_extrapolate_value_boundaries 11 (0, 10) (20, 40) none (some 33)
      (by norm_num)).2.1 (by norm_num),
   (C4_extrapolate_value_boundaries 0 (0, 10) (20, 40) none none
      (by norm_num)).2.2⟩

/-- C2: the exhaust fan's mode decision turns on exactly when currently off
with the differential strictly above the rising threshold, turns off exactly
when currently on with the differential strictly below the falling threshold,
changes mode in no other case, and, whenever `falling < rising` and the
differential lies in `[falling, rising]`, holds the mode and issues no
command. -/
theorem C2_exhaust_fan_hysteresis (m : HAState) (d rising falling : ℚ) :
    (m = HAState.off → (exhaust_new_mode m d rising falling = HAState.on ↔ rising < d))
    ∧ (m = HAState.on → (exhaust_new_mode m d rising falling = HAState.off ↔ d < falling))
    ∧ (exhaust_new_mode m d rising falling ≠ m →
        (m = HAState.off ∧ rising < d) ∨ (m = HAState.on ∧ d < falling))
    ∧ (falling < rising → falling ≤ d → d ≤ rising →
        exhaust_new_mode m d rising falling = m ∧
        exhaust_command_issued m d rising falling = false) := by
  refine ⟨fun hm => ?_, fun hm => ?_, fun hne => ?_, fun h1 h2 h3 => ?_⟩
  · subst hm
    unfold exhaust_new_mode
    split_ifs with ha hb <;> simp_all
  · subst hm
    unfold exhaust_new_mode
    split_ifs with ha hb <;> simp_all
  · unfold exhaust_new_mode at hne
    split_ifs at hne with ha hb
    · exact Or.inl ⟨ha.1, ha.2⟩
    · exact Or.inr ⟨hb.1, hb.2⟩
    · exact absurd rfl hne
  · have hnew : exhaust_new_mode m d rising falling = m := by
      unfold exhaust_new_mode
      split_ifs with ha hb
      · exact absurd ha.2 (not_lt.mpr h3)
      · exact absurd hb.2 (not_lt.mpr h2)
      · rfl
    refine ⟨hnew, ?_⟩
    simp [exhaust_command_issued, hnew]

/-- Witness for C2: with thresholds `falling = 1/2 < rising = 2` and a
differential `d = 1` between them, an off fan stays off and no command is
issued. -/
theorem C2_exhaust_fan_hysteresis_witness :
    exhaust_new_mode HAState.off 1 2 (1 / 2) = HAState.off ∧
    exhaust_command_issued HAState.off 1 2 (1 / 2) = false :=
  (C2_exhaust_fan_hysteresis HAState.off 1 2 (1 / 2)).2.2.2
    (by norm_num) (by norm_num) (by norm_num)

/-- C3 fails on the code: in `OFF`, a `REFRESH` with both guards true and an
auto-off period of 5 minutes configured turns the light on but leaves the
timer unset — `(OFF, REFRESH)` never calls `set_timer`, so no auto-off timer
is started. -/
theorem C3_off_refresh_no_timer_counterexample :
    (Light.process_event Light.refresh_example Light.MyEvent.REFRESH).map
      Light.Model.state = some Light.MyState.ON
    ∧ (Light.process_event Light.refresh_example Light.MyEvent.REFRESH).map
        Light.Model.timer = some none
    ∧ Light.refresh_example.auto_off_period = some 5
    ∧ Light.refresh_example.timer = none :=
  ⟨rfl, rfl, rfl, rfl⟩

/-- C3 (amended): in `OFF`, `REFRESH` with `lowLight ∧ haveRequired` sets the
state to `ON` and issues the turn-on command, leaving the timer unchanged
(the auto-off timer is not started); when either guard is false, state,
timer, and light are unchanged. -/
theorem C3_light_off_refresh (m : Light.Model) (h : m.state = Light.MyState.OFF) :
    ((Light.low_light_guard m && Light.have_required m) = true →
      Light.process_event m Light.MyEvent.REFRESH =
        some { m with state := Light.MyState.ON, commands := m.commands ++ [true] })
    ∧ ((Light.low_light_guard m && Light.have_required m) = false →
      Light.process_event m Light.MyEvent.REFRESH = some m) := by
  obtain ⟨s, ll, req, reqs, occ, aop, tm, cmds⟩ := m
  dsimp only at h
  subst h
  constructor <;> intro hg <;>
    simp [Light.process_event, hg]

/-- Witness for C3 at the concrete `OFF` controller with both guards true. -/
theorem C3_light_off_refresh_witness :
    Light.process_event Light.refresh_example Light.MyEvent.REFRESH =
      some { Light.refresh_example with
        state := Light.MyState.ON,
        commands := Light.refresh_example.commands ++ [true] } :=
  (C3_light_off_refresh Light.refresh_example rfl).1 rfl

/-- C6: from `UNOCCUPIED` with all door sensors in the doors-closed condition
and the required conditions satisfied, `MOTION` enters `WASP_IN_BOX` with no
timer outstanding; a `DOOR_OPEN` then enters `MOTION` and starts a fresh
motion-off timer; the timer firing with no auxiliary entity active enters
`UNOCCUPIED`. -/
theorem C6_occupancy_wasp_sequence (m : Occupancy.Model) (p : ℚ)
    (h1 : m.state = Occupancy.MyState.UNOCCUPIED)
    (h2 : Occupancy.doors_closed m = true)
    (h3 : Occupancy.have_required m = true)
    (h4 : m.motion_off_period = some p)
    (h5 : Occupancy.have_other m = false) :
    (Occupancy.process_event m Occupancy.MyEvent.MOTION).state =
      Occupancy.MyState.WASP_IN_BOX
    ∧ (Occupancy.process_event m Occupancy.MyEvent.MOTION).timer = none
    ∧ (Occupancy.process_event (Occupancy.process_event m Occupancy.MyEvent.MOTION)
        Occupancy.MyEvent.DOOR_OPEN).state = Occupancy.MyState.MOTION
    ∧ (Occupancy.process_event (Occupancy.process_event m Occupancy.MyEvent.MOTION)
        Occupancy.MyEvent.DOOR_OPEN).timer = some p
    ∧ (Occupancy.process_event
        (Occupancy.process_event (Occupancy.process_event m Occupancy.MyEvent.MOTION)
          Occupancy.MyEvent.DOOR_OPEN) Occupancy.MyEvent.TIMER).state =
      Occupancy.MyState.UNOCCUPIED
    ∧ (Occupancy.process_event
        (Occupancy.process_event (Occupancy.process_event m Occupancy.MyEvent.MOTION)
          Occupancy.MyEvent.DOOR_OPEN) Occupancy.MyEvent.TIMER).timer = none := by
  obtain ⟨s, ds, os, req, reqs, mop, tm⟩ := m
  dsimp only at h1
  subst h1
  simp only [Occupancy.process_event, Occupancy.enter_wasp_in_box_state,
    Occupancy.enter_motion_state, Occupancy.enter_unoccupied_state,
    Occupancy.enter_other_state, h2, h3, if_true]
  simp_all [Occupancy.have_other, Occupancy.doors_closed, Occupancy.have_required]
  have hos : some true ∉ os := fun hmem => h5 (some true) hmem rfl
  simp [hos]

/-- Witness for C6 at the concrete controller `wasp_example`. -/
theorem C6_occupancy_wasp_sequence_witness :
    (Occupancy.process_event Occupancy.wasp_example Occupancy.MyEvent.MOTION).state =
      Occupancy.MyState.WASP_IN_BOX
    ∧ (Occupancy.process_event Occupancy.wasp_example Occupancy.MyEvent.MOTION).timer = none
    ∧ (Occupancy.process_event
        (Occupancy.process_event Occupancy.wasp_example Occupancy.MyEvent.MOTION)
        Occupancy.MyEvent.DOOR_OPEN).state = Occupancy.MyState.MOTION
    ∧ (Occupancy.process_event
        (Occupancy.process_event Occupancy.wasp_example Occupancy.MyEvent.MOTION)
        Occupancy.MyEvent.DOOR_OPEN).timer = some 10
    ∧ (Occupancy.process_event
        (Occupancy.process_event
          (Occupancy.process_event Occupancy.wasp_example Occupancy.MyEvent.MOTION)
          Occupancy.MyEvent.DOOR_OPEN) Occupancy.MyEvent.TIMER).state =
      Occupancy.MyState.UNOCCUPIED
    ∧ (Occupancy.process_event
        (Occupancy.process_event
          (Occupancy.process_event Occupancy.wasp_example Occupancy.MyEvent.MOTION)
          Occupancy.MyEvent.DOOR_OPEN) Occupancy.MyEvent.TIMER).timer = none :=
  C6_occupancy_wasp_sequence Occupancy.wasp_example 10 rfl rfl rfl rfl rfl

/-- C10: the doors-closed guard holds iff at least one door sensor is
configured and every configured door sensor's last accepted reading is the
on state; with zero configured door sensors no event ever enters
`WASP_IN_BOX`, and a `MOTION` event (required conditions satisfied) enters
`MOTION`; and a door-sensor change fires `DOOR_OPEN` only when at least one
door sensor then reads on. -/
theorem C10_occupancy_doors_guard (m : Occupancy.Model) (i : ℕ) (v : Bool)
    (e : Occupancy.MyEvent) :
    (Occupancy.doors_closed m = true ↔
      m.door_states ≠ [] ∧ ∀ d ∈ m.door_states, d = some true)
    ∧ (m.door_states = [] → m.state ≠ Occupancy.MyState.WASP_IN_BOX →
        (Occupancy.process_event m e).state ≠ Occupancy.MyState.WASP_IN_BOX)
    ∧ (m.door_states = [] → Occupancy.have_required m = true →
        m.state ≠ Occupancy.MyState.WASP_IN_BOX →
        (Occupancy.process_event m Occupancy.MyEvent.MOTION).state =
          Occupancy.MyState.MOTION)
    ∧ ((Occupancy.door_sensor_changed m i v).2 = true →
        ∃ d ∈ (Occupancy.door_sensor_changed m i v).1.door_states, d = some true) := by
  obtain ⟨s, ds, os, req, reqs, mop, tm⟩ := m
  refine ⟨?_, fun hds hs => ?_, fun hds hreq hs => ?_, fun hfired => ?_⟩
  · simp [Occupancy.doors_closed, List.isEmpty_iff, List.all_eq_true]
  · dsimp only at hds hs ⊢
    subst hds
    cases s <;> cases e <;>
      simp_all [Occupancy.process_event, Occupancy.doors_closed,
        Occupancy.enter_motion_state, Occupancy.enter_other_state,
        Occupancy.enter_unoccupied_state, Occupancy.enter_wasp_in_box_state] <;>
      split_ifs <;> simp_all
  · dsimp only at hds hs ⊢
    subst hds
    cases s <;>
      simp_all [Occupancy.process_event, Occupancy.doors_closed,
        Occupancy.enter_motion_state, Occupancy.enter_wasp_in_box_state]
  · simp only [Occupancy.door_sensor_changed, List.any_eq_true, beq_iff_eq] at hfired
    simpa [Occupancy.door_sensor_changed] using hfired

/-- Witness for C10: with zero door sensors a `MOTION` event enters `MOTION`,
and setting the single door sensor of `door_example` to on fires `DOOR_OPEN`
with that sensor reading on. -/
theorem C10_occupancy_doors_guard_witness :
    (Occupancy.process_event Occupancy.no_doors_example Occupancy.MyEvent.MOTION).state =
      Occupancy.MyState.MOTION
    ∧ ∃ d ∈ (Occupancy.door_sensor_changed Occupancy.door_example 0 true).1.door_states,
        d = some true :=
  ⟨(C10_occupancy_doors_guard Occupancy.no_doors_example 0 true
      Occupancy.MyEvent.MOTION).2.2.1 rfl rfl (by decide),
   (C10_occupancy_doors_guard Occupancy.door_example 0 true
      Occupancy.MyEvent.MOTION).2.2.2 rfl⟩

/-- C7 fails on the `BaseController` runtime: delivering a notification whose
old and new values are equal (both a valid `"on"`) invokes the state-change
handler once — `BaseController.async_setup.on_state_event` forwards only the
new state, and `BaseController._on_state_change` has no old-equals-new
dedupe. -/
theorem C7_base_no_dedupe_counterexample :
    (Runtime.base_on_state_event (fun (n : ℕ) _ => n + 1)
        (some { entity_id := "sensor.x", state := "on" })
        (some { entity_id := "sensor.x", state := "on" })
        { internal := 0, handler_calls := 0 }).handler_calls = 1
    ∧ "on" ∉ Runtime.IGNORE_STATES := by
  refine ⟨rfl, by simp [Runtime.IGNORE_STATES]⟩

/-- C7 (amended): for both runtimes, a notification whose new value is absent
or unavailable/unknown is a no-op; the equal-old-and-new dedupe holds for the
`SmartController` runtime only (the `BaseController` filter never receives
the old value). -/
theorem C7_input_change_filter {σ : Type} (handler : σ → Runtime.StateObj → σ)
    (old_state new_state : Option Runtime.StateObj) (c : Runtime.Core σ) :
    (new_state = none →
      Runtime.smart_on_state_change handler old_state new_state c = c
      ∧ Runtime.base_on_state_event handler old_state new_state c = c)
    ∧ (∀ ns, new_state = some ns → ns.state ∈ Runtime.IGNORE_STATES →
      Runtime.smart_on_state_change handler old_state new_state c = c
      ∧ Runtime.base_on_state_event handler old_state new_state c = c)
    ∧ (∀ os ns, old_state = some os → new_state = some ns → os.state = ns.state →
      Runtime.smart_on_state_change handler old_state new_state c = c) := by
  refine ⟨fun hn => ?_, fun ns hn hign => ?_, fun os ns ho hn heq => ?_⟩
  · subst hn
    exact ⟨rfl, rfl⟩
  · subst hn
    constructor
    · simp [Runtime.smart_on_state_change, hign]
    · simp [Runtime.base_on_state_event, Runtime.base_on_state_change, hign]
  · subst hn
    subst ho
    by_cases hign : ns.state ∈ Runtime.IGNORE_STATES
    · simp [Runtime.smart_on_state_change, hign]
    · simp [Runtime.smart_on_state_change, hign, heq]

/-- Witness for C7 at a concrete equal-value notification on the
`SmartController` runtime. -/
theorem C7_input_change_filter_witness :
    Runtime.smart_on_state_change (fun (n : ℕ) _ => n + 1)
      (some { entity_id := "sensor.x", state := "off" })
      (some { entity_id := "sensor.x", state := "off" })
      { internal := 0, handler_calls := 0 } =
      { internal := 0, handler_calls := 0 } :=
  (C7_input_change_filter (fun (n : ℕ) _ => n + 1)
      (some { entity_id := "sensor.x", state := "off" })
      (some { entity_id := "sensor.x", state := "off" })
      { internal := 0, handler_calls := 0 }).2.2
    { entity_id := "sensor.x", state := "off" }
    { entity_id := "sensor.x", state := "off" } rfl rfl rfl

/-- A freshly constructed controller satisfies the timer invariant. -/
theorem timer_initial_inv : Runtime.TimerInv Runtime.timer_initial :=
  ⟨rfl, by simp [Runtime.timer_initial]⟩

/-- Every timer operation preserves the timer invariant. -/
theorem timer_step_inv (c : Runtime.TimerCtrl) (op : Runtime.TimerOp)
    (h : Runtime.TimerInv c) : Runtime.TimerInv (Runtime.timer_step c op) := by
  obtain ⟨h1, h2⟩ := h
  cases op with
  | fire =>
      cases hu : c.timer_unsub with
      | none =>
          rw [hu] at h1
          exact ⟨by simp [Runtime.timer_step, Runtime.timer_fired, hu, h1],
            by simp [Runtime.timer_step, Runtime.timer_fired, hu, h1]⟩
      | some hh =>
          rw [hu] at h1
          refine ⟨?_, ?_⟩
          · simp [Runtime.timer_step, Runtime.timer_fired, hu, h1]
          · intro x hx
            simp [Runtime.timer_step, Runtime.timer_fired, hu, h1] at hx
  | set p =>
      cases p with
      | none =>
          cases hu : c.timer_unsub with
          | none =>
              rw [hu] at h1
              exact ⟨by simp [Runtime.timer_step, Runtime.set_timer, hu, h1],
                by simp [Runtime.timer_step, Runtime.set_timer, hu, h1]⟩
          | some hh =>
              rw [hu] at h1
              refine ⟨?_, ?_⟩
              · simp [Runtime.timer_step, Runtime.set_timer, hu, h1]
              · intro x hx
                simp [Runtime.timer_step, Runtime.set_timer, hu, h1] at hx
      | some d =>
          cases hu : c.timer_unsub with
          | none =>
              rw [hu] at h1
              refine ⟨?_, ?_⟩
              · simp [Runtime.timer_step, Runtime.set_timer, hu, h1]
              · intro x hx
                simp [Runtime.timer_step, Runtime.set_timer, hu, h1] at hx
                simp [Runtime.timer_step, Runtime.set_timer, hu, h1, hx]
          | some hh =>
              rw [hu] at h1
              refine ⟨?_, ?_⟩
              · simp [Runtime.timer_step, Runtime.set_timer, hu, h1]
              · intro x hx
                simp [Runtime.timer_step, Runtime.set_timer, hu, h1] at hx
                simp [Runtime.timer_step, Runtime.set_timer, hu, h1, hx]

/-- The timer invariant holds after any sequence of timer operations. -/
theorem timer_run_inv (ops : List Runtime.TimerOp) (c : Runtime.TimerCtrl)
    (h : Runtime.TimerInv c) : Runtime.TimerInv (Runtime.timer_run c ops) := by
  induction ops generalizing c with
  | nil => exact h
  | cons op ops ih => exact ih _ (timer_step_inv c op h)

/-- C8: after any sequence of timer operations (set with any mix of `None`
and durations, firing), the live timer handles are exactly the one held in
`_timer_unsub` — the controller holds zero or exactly one live timer. -/
theorem C8_at_most_one_timer (ops : List Runtime.TimerOp) :
    (Runtime.timer_run Runtime.timer_initial ops).live =
      (Runtime.timer_run Runtime.timer_initial ops).timer_unsub.toList
    ∧ (Runtime.timer_run Runtime.timer_initial ops).live.length ≤ 1 := by
  have h := timer_run_inv ops Runtime.timer_initial timer_initial_inv
  refine ⟨h.1, ?_⟩
  rw [h.1]
  cases (Runtime.timer_run Runtime.timer_initial ops).timer_unsub <;> simp

/-- C1 fails on the code: the echo of the ceiling fan's `fan.set_percentage`
call reaches `_on_state_change` (the call site passes no `context`, so the
notification does not carry a `MyContext`), while the exhaust fan's and the
light's commands, tagged through `async_service_call`, are filtered. -/
theorem C1_ceiling_fan_echo_not_filtered :
    Runtime.echo_reaches_handler
      (Runtime.command_context Runtime.CommandPath.ceiling_fan_set_percentage) = true
    ∧ Runtime.echo_reaches_handler
        (Runtime.command_context Runtime.CommandPath.exhaust_fan_turn_on_off) = false
    ∧ Runtime.echo_reaches_handler
        (Runtime.command_context Runtime.CommandPath.light_turn_on_off) = false :=
  ⟨rfl, rfl, rfl⟩

/-- C9 fails on the code: `BaseController` declares `_unsubscribers = []` in
the class body and never rebinds it on the instance, so two controller
instances resolve `self._unsubscribers` to the same list object — after the
first instance's `async_setup` appends its subscription (handle 7), the
second instance observes it; two `SmartController` instances, whose
`__init__` binds a fresh list per instance, remain independent. -/
theorem C9_base_controller_shared_unsubscribers :
    ClassAttr.lookup_unsubscribers ClassAttr.base_init =
      ClassAttr.base_class_unsubscribers_oid
    ∧ (ClassAttr.setup_append ClassAttr.base_heap0 ClassAttr.base_init 7).get
        (ClassAttr.lookup_unsubscribers ClassAttr.base_init) = [7]
    ∧ (ClassAttr.setup_append
          ((ClassAttr.smart_init ((ClassAttr.smart_init ClassAttr.base_heap0 1).1) 2).1)
          (ClassAttr.smart_init ClassAttr.base_heap0 1).2 7).get
        (ClassAttr.lookup_unsubscribers
          ((ClassAttr.smart_init ((ClassAttr.smart_init ClassAttr.base_heap0 1).1) 2).2)) =
      [] :=
  ⟨rfl, rfl, rfl⟩

end SmartCtrl
